import Mathlib

/-!
Verification of the percentile engine and replica merge policy of the
`srs_test` benchmark post-processing scripts.

Numbers that the Python scripts handle as floats are modelled as exact
rationals (`ℚ`); the arithmetic of the percentile formula and of the merge
policy is exact in the source expressions, so `ℚ` is the faithful value
model.  Python's `None` / raised exceptions are modelled with explicit
sum types.
-/

/-- Result of `calculate_percentile` (src/srs_test/analysis/data_compare_dp.py,
lines 9-28): either Python `None`, a numeric value, or a raised `IndexError`. -/
inductive PyResult where
  | none : PyResult
  | val : ℚ → PyResult
  | indexError : PyResult
deriving DecidableEq, Repr

/-- Python list subscription `l[i]` with an `Int` index: nonnegative indices
index from the front, negative indices index from the back (`l[i]` is
`l[len l + i]` for `-len l ≤ i < 0`), anything else raises `IndexError`
(modelled as `Option.none`). -/
def pyGet (l : List ℚ) (i : ℤ) : Option ℚ :=
  if 0 ≤ i then l[i.toNat]?
  else if 0 ≤ i + (l.length : ℤ) then l[(i + (l.length : ℤ)).toNat]?
  else Option.none

/-- Embedding of `calculate_percentile(data, percentile)` from
src/srs_test/analysis/data_compare_dp.py lines 9-28, for list inputs
(the `isinstance(data, list)` test succeeds; `calculate_percentile_dyn`
below models the dynamic-input guard in full):

    if not data or not isinstance(data, list):
        return None
    sorted_data = sorted(data)
    n = len(sorted_data)
    index = (n - 1) * (percentile / 100)
    floor_index = int(np.floor(index))
    fractional = index - floor_index
    if floor_index + 1 < n:
        return sorted_data[floor_index] + fractional * (sorted_data[floor_index + 1] - sorted_data[floor_index])
    else:
        return sorted_data[floor_index]

`sorted(data)` is an ascending copy of `data`, modelled by insertion sort;
`int(np.floor(index))` is the exact floor of the rational rank.  List
subscription uses Python semantics (`pyGet`), so indices that escape the
list raise `IndexError`. -/
def calculate_percentile (data : List ℚ) (percentile : ℚ) : PyResult :=
  if data.isEmpty then PyResult.none
  else
    let sorted_data := List.insertionSort (· ≤ ·) data
    let n : ℕ := sorted_data.length
    let index : ℚ := ((n : ℚ) - 1) * (percentile / 100)
    let floor_index : ℤ := ⌊index⌋
    let fractional : ℚ := index - (floor_index : ℚ)
    if floor_index + 1 < (n : ℤ) then
      match pyGet sorted_data floor_index, pyGet sorted_data (floor_index + 1) with
      | Option.some lo, Option.some hi => PyResult.val (lo + fractional * (hi - lo))
      | _, _ => PyResult.indexError
    else
      match pyGet sorted_data floor_index with
      | Option.some v => PyResult.val v
      | Option.none => PyResult.indexError

/-- Helper: evaluate `calculate_percentile` when the interpolation branch
(`floor_index + 1 < n`) is taken, given the sorted copy, the floor of the
rank, and the two bracketing samples. -/
theorem calculate_percentile_eval_interp (data s : List ℚ) (p lo hi v : ℚ) (k : ℤ)
    (hd : data.isEmpty = false)
    (hs : List.insertionSort (· ≤ ·) data = s)
    (hk : ⌊((s.length : ℚ) - 1) * (p / 100)⌋ = k)
    (hlt : k + 1 < (s.length : ℤ))
    (hlo : pyGet s k = Option.some lo)
    (hhi : pyGet s (k + 1) = Option.some hi)
    (hv : lo + (((s.length : ℚ) - 1) * (p / 100) - (k : ℚ)) * (hi - lo) = v) :
    calculate_percentile data p = PyResult.val v := by
  unfold calculate_percentile
  rw [hd]
  simp only [Bool.false_eq_true, if_false, hs, hk, if_pos hlt, hlo, hhi, hv]

/-- Helper: evaluate `calculate_percentile` when the final branch
(`floor_index + 1 ≥ n`) is taken and the subscript succeeds. -/
theorem calculate_percentile_eval_last (data s : List ℚ) (p v : ℚ) (k : ℤ)
    (hd : data.isEmpty = false)
    (hs : List.insertionSort (· ≤ ·) data = s)
    (hk : ⌊((s.length : ℚ) - 1) * (p / 100)⌋ = k)
    (hge : ¬ (k + 1 < (s.length : ℤ)))
    (hv : pyGet s k = Option.some v) :
    calculate_percentile data p = PyResult.val v := by
  unfold calculate_percentile
  rw [hd]
  simp only [Bool.false_eq_true, if_false, hs, hk, if_neg hge, hv]

/-- Helper: evaluate `calculate_percentile` when the final branch is taken
and the subscript escapes the list, raising `IndexError`. -/
theorem calculate_percentile_eval_last_err (data s : List ℚ) (p : ℚ) (k : ℤ)
    (hd : data.isEmpty = false)
    (hs : List.insertionSort (· ≤ ·) data = s)
    (hk : ⌊((s.length : ℚ) - 1) * (p / 100)⌋ = k)
    (hge : ¬ (k + 1 < (s.length : ℤ)))
    (hv : pyGet s k = Option.none) :
    calculate_percentile data p = PyResult.indexError := by
  unfold calculate_percentile
  rw [hd]
  simp only [Bool.false_eq_true, if_false, hs, hk, if_neg hge, hv]

/-- Helper: closed-form floor evaluation for concrete rationals. -/
theorem floor_eval (a : ℚ) (z : ℤ) (h1 : (z : ℚ) ≤ a) (h2 : a < z + 1) : ⌊a⌋ = z :=
  Int.floor_eq_iff.2 ⟨h1, by exact_mod_cast h2⟩

/-- Helper: `calculate_percentile [1, 2, 3, 4] 99` evaluates to `3.97`. -/
theorem eval_1234_99 : calculate_percentile [1, 2, 3, 4] 99 = PyResult.val (397 / 100) := by
  refine calculate_percentile_eval_interp [1, 2, 3, 4] [1, 2, 3, 4] 99 3 4 (397 / 100) 2
    (by decide) (by decide) ?_ (by decide) (by decide) (by decide) (by norm_num)
  exact floor_eval _ _ (by norm_num) (by norm_num)

/-- Helper: `calculate_percentile [10, 20, 30, 40, 50] 50` evaluates to `30`. -/
theorem eval_1050_50 : calculate_percentile [10, 20, 30, 40, 50] 50 = PyResult.val 30 := by
  refine calculate_percentile_eval_interp [10, 20, 30, 40, 50] [10, 20, 30, 40, 50] 50 30 40 30 2
    (by decide) (by decide) ?_ (by decide) (by decide) (by decide) (by norm_num)
  exact floor_eval _ _ (by norm_num) (by norm_num)

/-- C1: calculate_percentile follows the linear (R-7) interpolation method:
for samples [10, 20, 30, 40, 50] and p = 50 it returns exactly 30.0, and for
samples [1, 2, 3, 4] and p = 99 it returns exactly 3.97, computed as
sorted[2] + 0.97 * (sorted[3] - sorted[2]). -/
theorem calculate_percentile_r7_concrete_cases :
    calculate_percentile [10, 20, 30, 40, 50] 50 = PyResult.val 30 ∧
    calculate_percentile [1, 2, 3, 4] 99 = PyResult.val (3 + (97 / 100) * (4 - 3)) := by
  refine ⟨eval_1050_50, ?_⟩
  rw [eval_1234_99]
  norm_num

/-- C3: for every p in [0, 100], calculate_percentile applied to an empty
sample list returns the explicit no-value result `None` (not zero and not a
raised exception, which would be `PyResult.val 0` / `PyResult.indexError`). -/
theorem calculate_percentile_empty_returns_none (p : ℚ) (h0 : 0 ≤ p) (h1 : p ≤ 100) :
    calculate_percentile [] p = PyResult.none := rfl

/-- Witness for C3 at p = 50. -/
theorem calculate_percentile_empty_returns_none_witness :
    calculate_percentile [] 50 = PyResult.none :=
  calculate_percentile_empty_returns_none 50 (by norm_num) (by norm_num)

/-- C4 counterexample: for samples [10, 20, 30, 40, 50] and p = 101 (outside
[0, 100]), calculate_percentile does not fail at all: it proceeds with the
computation and returns the numeric value 50, so no InvalidArgument failure
is raised before computation. -/
theorem calculate_percentile_out_of_range_returns_value :
    calculate_percentile [10, 20, 30, 40, 50] 101 = PyResult.val 50 := by
  refine calculate_percentile_eval_last [10, 20, 30, 40, 50] [10, 20, 30, 40, 50] 101 50 4
    (by decide) (by decide) ?_ (by decide) (by decide)
  exact floor_eval _ _ (by norm_num) (by norm_num)

/-- C4 amended: calculate_percentile performs no range validation on the
percentile argument; an out-of-range p flows into the same rank computation,
which on [10, 20, 30, 40, 50] returns the numeric value 50 for p = 101
(rank floor n - 1 hits the last sample), returns the numeric value 40 for
p = -50 (Python negative indexing from the back), and raises IndexError for
p = 150 (rank floor 6 escapes the list). -/
theorem calculate_percentile_no_range_validation :
    calculate_percentile [10, 20, 30, 40, 50] 101 = PyResult.val 50 ∧
    calculate_percentile [10, 20, 30, 40, 50] (-50) = PyResult.val 40 ∧
    calculate_percentile [10, 20, 30, 40, 50] 150 = PyResult.indexError := by
  refine ⟨?_, ?_, ?_⟩
  · refine calculate_percentile_eval_last [10, 20, 30, 40, 50] [10, 20, 30, 40, 50] 101 50 4
      (by decide) (by decide) ?_ (by decide) (by decide)
    exact floor_eval _ _ (by norm_num) (by norm_num)
  · refine calculate_percentile_eval_interp [10, 20, 30, 40, 50] [10, 20, 30, 40, 50] (-50)
      40 50 40 (-2) (by decide) (by decide) ?_ (by decide) (by decide) (by decide) (by norm_num)
    exact floor_eval _ _ (by norm_num) (by norm_num)
  · refine calculate_percentile_eval_last_err [10, 20, 30, 40, 50] [10, 20, 30, 40, 50] 150 6
      (by decide) (by decide) ?_ (by decide) (by decide)
    exact floor_eval _ _ (by norm_num) (by norm_num)

/-- Normal form of the rank interpolation that `calculate_percentile` performs
on the sorted copy: with k the (nonnegative) floor of the fractional rank x,
interpolate between the k-th and (k+1)-th order statistics, or take the k-th
when k is the last index. -/
def rankValue (s : List ℚ) (x : ℚ) : ℚ :=
  if ⌊x⌋.toNat + 1 < s.length then
    s.getD ⌊x⌋.toNat 0 +
      (x - (⌊x⌋.toNat : ℚ)) * (s.getD (⌊x⌋.toNat + 1) 0 - s.getD ⌊x⌋.toNat 0)
  else s.getD ⌊x⌋.toNat 0

/-- Helper: `pyGet` at an in-range nonnegative index is plain list lookup. -/
theorem pyGet_nonneg_eq (l : List ℚ) (i : ℤ) (h0 : 0 ≤ i) (hlt : i.toNat < l.length) :
    pyGet l i = Option.some (l.getD i.toNat 0) := by
  unfold pyGet
  rw [if_pos h0, List.getElem?_eq_getElem hlt]
  simp [List.getD_eq_getElem?_getD, List.getElem?_eq_getElem hlt]

/-- Helper: for a non-empty sample list and a percentile in [0, 100],
`calculate_percentile` returns the rank interpolation `rankValue` of the
sorted copy at the fractional rank (n - 1) * (p / 100): both subscripts stay
in range, so no IndexError and no None is possible. -/
theorem calculate_percentile_eq_rankValue (data : List ℚ) (hd : data ≠ []) (p : ℚ)
    (h0 : 0 ≤ p) (h1 : p ≤ 100) :
    calculate_percentile data p =
      PyResult.val (rankValue (List.insertionSort (· ≤ ·) data)
        (((data.length : ℚ) - 1) * (p / 100))) := by
  have hlen : (List.insertionSort (· ≤ ·) data).length = data.length :=
    List.length_insertionSort _ _
  have hpos : 0 < data.length := List.length_pos.2 hd
  have hone : (1 : ℚ) ≤ (data.length : ℚ) := by exact_mod_cast hpos
  set s := List.insertionSort (· ≤ ·) data with hsdef
  set x : ℚ := ((data.length : ℚ) - 1) * (p / 100) with hxdef
  have hx0 : 0 ≤ x := mul_nonneg (by linarith) (by positivity)
  have hxle : x ≤ (data.length : ℚ) - 1 := by
    have h3 : p / 100 ≤ 1 := by linarith
    calc x ≤ ((data.length : ℚ) - 1) * 1 := by
          exact mul_le_mul_of_nonneg_left h3 (by linarith)
    _ = (data.length : ℚ) - 1 := mul_one _
  have hfl0 : 0 ≤ ⌊x⌋ := Int.floor_nonneg.2 hx0
  have hfl_le : ⌊x⌋ ≤ (data.length : ℤ) - 1 := by
    calc ⌊x⌋ ≤ ⌊(data.length : ℚ) - 1⌋ := Int.floor_mono hxle
    _ = (data.length : ℤ) - 1 := by
        rw [show ((data.length : ℚ) - 1) = (((data.length : ℤ) - 1 : ℤ) : ℚ) by push_cast; ring,
          Int.floor_intCast]
  have hkc : ((⌊x⌋.toNat : ℤ)) = ⌊x⌋ := Int.toNat_of_nonneg hfl0
  have hkcQ : ((⌊x⌋.toNat : ℚ)) = ((⌊x⌋ : ℤ) : ℚ) := by exact_mod_cast hkc
  have hklt : ⌊x⌋.toNat < data.length := by omega
  have hdE : data.isEmpty = false := by simp [List.isEmpty_iff, hd]
  unfold calculate_percentile rankValue
  rw [hdE]
  simp only [Bool.false_eq_true, if_false, ← hsdef, hlen, ← hxdef]
  by_cases hbr : ⌊x⌋ + 1 < (data.length : ℤ)
  · rw [if_pos hbr, if_pos (show ⌊x⌋.toNat + 1 < data.length by omega)]
    rw [pyGet_nonneg_eq s ⌊x⌋ hfl0 (by rw [hlen]; omega)]
    rw [pyGet_nonneg_eq s (⌊x⌋ + 1) (by omega) (by rw [hlen]; omega)]
    rw [show (⌊x⌋ + 1).toNat = ⌊x⌋.toNat + 1 by omega]
    rw [hkcQ]
  · rw [if_neg hbr, if_neg (show ¬ (⌊x⌋.toNat + 1 < data.length) by omega)]
    rw [pyGet_nonneg_eq s ⌊x⌋ hfl0 (by rw [hlen]; omega)]

/-- Helper: in a sorted (ascending) list, values are monotone in the index. -/
theorem sorted_getD_le (s : List ℚ) (hs : s.Sorted (· ≤ ·)) (i j : ℕ) (hij : i ≤ j)
    (hj : j < s.length) : s.getD i 0 ≤ s.getD j 0 := by
  have hi : i < s.length := lt_of_le_of_lt hij hj
  have h := hs.rel_get_of_le (a := ⟨i, hi⟩) (b := ⟨j, hj⟩) (Fin.mk_le_mk.mpr hij)
  simpa [List.getD_eq_getElem?_getD, List.getElem?_eq_getElem, hi, hj,
    List.get_eq_getElem] using h

/-- Helper: an in-range `getD` is a member of the list. -/
theorem getD_mem (s : List ℚ) (i : ℕ) (hi : i < s.length) : s.getD i 0 ∈ s := by
  rw [List.getD_eq_getElem?_getD, List.getElem?_eq_getElem hi]
  exact List.getElem_mem hi

/-- Helper: an in-range `getD` is the plain indexed element. -/
theorem getD_eq_elem (s : List ℚ) (i : ℕ) (hi : i < s.length) :
    s.getD i 0 = s[i] := by
  simp [List.getD_eq_getElem?_getD, List.getElem?_eq_getElem hi]

/-- Helper: the head of a sorted list is a lower bound for its members. -/
theorem sorted_getD_zero_min (s : List ℚ) (hs : s.Sorted (· ≤ ·)) (y : ℚ) (hy : y ∈ s) :
    s.getD 0 0 ≤ y := by
  obtain ⟨i, hi, rfl⟩ := List.mem_iff_getElem.1 hy
  have h := sorted_getD_le s hs 0 i (Nat.zero_le _) hi
  rwa [getD_eq_elem s i hi] at h

/-- Helper: the last entry of a sorted list is an upper bound for its members. -/
theorem sorted_getD_last_max (s : List ℚ) (hs : s.Sorted (· ≤ ·)) (y : ℚ) (hy : y ∈ s) :
    y ≤ s.getD (s.length - 1) 0 := by
  obtain ⟨i, hi, rfl⟩ := List.mem_iff_getElem.1 hy
  have hlast : s.length - 1 < s.length := by omega
  have h := sorted_getD_le s hs i (s.length - 1) (by omega) hlast
  rwa [getD_eq_elem s i hi] at h

/-- Helper: the rank interpolation at rank 0 is the first order statistic. -/
theorem rankValue_zero (s : List ℚ) : rankValue s 0 = s.getD 0 0 := by
  unfold rankValue
  simp

/-- Helper: the rank interpolation at the top rank n - 1 is the last order
statistic. -/
theorem rankValue_last (s : List ℚ) (hpos : 0 < s.length) :
    rankValue s ((s.length : ℚ) - 1) = s.getD (s.length - 1) 0 := by
  unfold rankValue
  have h1 : ⌊(s.length : ℚ) - 1⌋ = (s.length : ℤ) - 1 := by
    rw [show ((s.length : ℚ) - 1) = (((s.length : ℤ) - 1 : ℤ) : ℚ) by push_cast; ring,
      Int.floor_intCast]
  rw [h1, show ((s.length : ℤ) - 1).toNat = s.length - 1 by omega, if_neg (by omega)]

/-- C2: for every non-empty sample list, percentile 0 is the minimum of the
samples, percentile 100 is the maximum, and on a single-element list [x] the
result is x for every p in [0, 100]. -/
theorem calculate_percentile_min_max_singleton (data : List ℚ) (hd : data ≠ [])
    (x p : ℚ) (h0 : 0 ≤ p) (h1 : p ≤ 100) :
    (∃ m, calculate_percentile data 0 = PyResult.val m ∧ m ∈ data ∧ ∀ y ∈ data, m ≤ y) ∧
    (∃ M, calculate_percentile data 100 = PyResult.val M ∧ M ∈ data ∧ ∀ y ∈ data, y ≤ M) ∧
    calculate_percentile [x] p = PyResult.val x := by
  have hsorted : (List.insertionSort (· ≤ ·) data).Sorted (· ≤ ·) :=
    List.sorted_insertionSort _ _
  have hmem : ∀ z, z ∈ List.insertionSort (· ≤ ·) data ↔ z ∈ data := fun z =>
    List.mem_insertionSort _
  have hlen : (List.insertionSort (· ≤ ·) data).length = data.length :=
    List.length_insertionSort _ _
  have hpos : 0 < data.length := List.length_pos.2 hd
  refine ⟨?_, ?_, ?_⟩
  · have he := calculate_percentile_eq_rankValue data hd 0 le_rfl (by norm_num)
    rw [show ((data.length : ℚ) - 1) * (0 / 100) = 0 by ring, rankValue_zero] at he
    refine ⟨_, he, (hmem _).1 (getD_mem _ _ (by omega)), fun y hy =>
      sorted_getD_zero_min _ hsorted y ((hmem y).2 hy)⟩
  · have he := calculate_percentile_eq_rankValue data hd 100 (by norm_num) le_rfl
    rw [show ((data.length : ℚ) - 1) * (100 / 100) = (data.length : ℚ) - 1 by ring,
      show ((data.length : ℚ)) = ((List.insertionSort (· ≤ ·) data).length : ℚ) by rw [hlen],
      rankValue_last _ (by omega)] at he
    refine ⟨_, he, (hmem _).1 (getD_mem _ _ (by omega)), fun y hy =>
      sorted_getD_last_max _ hsorted y ((hmem y).2 hy)⟩
  · have he := calculate_percentile_eq_rankValue [x] (by simp) p h0 h1
    simp only [List.length_singleton, Nat.cast_one, sub_self, zero_mul, rankValue_zero] at he
    simpa [List.getD] using he

/-- Witness for C2 on the list [3, 1, 2] with x = 5 and p = 37. -/
theorem calculate_percentile_min_max_singleton_witness :
    (∃ m, calculate_percentile [3, 1, 2] 0 = PyResult.val m ∧ m ∈ [(3 : ℚ), 1, 2] ∧
      ∀ y ∈ [(3 : ℚ), 1, 2], m ≤ y) ∧
    (∃ M, calculate_percentile [3, 1, 2] 100 = PyResult.val M ∧ M ∈ [(3 : ℚ), 1, 2] ∧
      ∀ y ∈ [(3 : ℚ), 1, 2], y ≤ M) ∧
    calculate_percentile [(5 : ℚ)] 37 = PyResult.val 5 :=
  calculate_percentile_min_max_singleton [3, 1, 2] (by decide) 5 37 (by norm_num) (by norm_num)

/-- Helper: the rank interpolation is at least the lower bracketing order
statistic. -/
theorem rankValue_ge_getD (s : List ℚ) (hs : s.Sorted (· ≤ ·)) (x : ℚ) (hx0 : 0 ≤ x) :
    s.getD ⌊x⌋.toNat 0 ≤ rankValue s x := by
  unfold rankValue
  by_cases h : ⌊x⌋.toNat + 1 < s.length
  · rw [if_pos h]
    have hkx : ((⌊x⌋.toNat : ℚ)) ≤ x := by
      rw [show ((⌊x⌋.toNat : ℚ)) = ((⌊x⌋ : ℤ) : ℚ) by
        exact_mod_cast Int.toNat_of_nonneg (Int.floor_nonneg.2 hx0)]
      exact Int.floor_le x
    have hstep : s.getD ⌊x⌋.toNat 0 ≤ s.getD (⌊x⌋.toNat + 1) 0 :=
      sorted_getD_le s hs _ _ (Nat.le_succ _) h
    nlinarith [mul_nonneg (sub_nonneg.2 hkx) (sub_nonneg.2 hstep)]
  · rw [if_neg h]

/-- Helper: the rank interpolation is at most the upper bracketing order
statistic. -/
theorem rankValue_le_getD_succ (s : List ℚ) (hs : s.Sorted (· ≤ ·)) (x : ℚ)
    (h : ⌊x⌋.toNat + 1 < s.length) :
    rankValue s x ≤ s.getD (⌊x⌋.toNat + 1) 0 := by
  unfold rankValue
  rw [if_pos h]
  have h1 : x < (⌊x⌋ : ℚ) + 1 := Int.lt_floor_add_one x
  have h2 : ((⌊x⌋ : ℤ) : ℚ) ≤ ((⌊x⌋.toNat : ℚ)) := by exact_mod_cast Int.self_le_toNat _
  have hfrac1 : x - (⌊x⌋.toNat : ℚ) ≤ 1 := by linarith
  have hstep : s.getD ⌊x⌋.toNat 0 ≤ s.getD (⌊x⌋.toNat + 1) 0 :=
    sorted_getD_le s hs _ _ (Nat.le_succ _) h
  nlinarith [mul_nonneg (sub_nonneg.2 hfrac1) (sub_nonneg.2 hstep)]

/-- Helper: for a sorted list, the rank interpolation is monotone in the rank
on [0, n - 1]. -/
theorem rankValue_mono (s : List ℚ) (hs : s.Sorted (· ≤ ·)) (x y : ℚ)
    (hx0 : 0 ≤ x) (hxy : x ≤ y) (hy : y ≤ (s.length : ℚ) - 1) :
    rankValue s x ≤ rankValue s y := by
  have hy0 : 0 ≤ y := le_trans hx0 hxy
  have hky_le : ⌊y⌋ ≤ (s.length : ℤ) - 1 := by
    calc ⌊y⌋ ≤ ⌊(s.length : ℚ) - 1⌋ := Int.floor_mono hy
    _ = (s.length : ℤ) - 1 := by
        rw [show ((s.length : ℚ) - 1) = (((s.length : ℤ) - 1 : ℤ) : ℚ) by push_cast; ring,
          Int.floor_intCast]
  have hkx0 : ((⌊x⌋.toNat : ℤ)) = ⌊x⌋ := Int.toNat_of_nonneg (Int.floor_nonneg.2 hx0)
  have hky0 : ((⌊y⌋.toNat : ℤ)) = ⌊y⌋ := Int.toNat_of_nonneg (Int.floor_nonneg.2 hy0)
  have hfxy : ⌊x⌋ ≤ ⌊y⌋ := Int.floor_mono hxy
  have hkxy : ⌊x⌋.toNat ≤ ⌊y⌋.toNat := by omega
  have hkylt : ⌊y⌋.toNat < s.length := by omega
  rcases eq_or_lt_of_le hkxy with heq | hlt
  · unfold rankValue
    rw [heq]
    by_cases hbr : ⌊y⌋.toNat + 1 < s.length
    · rw [if_pos hbr, if_pos hbr]
      have hstep : s.getD ⌊y⌋.toNat 0 ≤ s.getD (⌊y⌋.toNat + 1) 0 :=
        sorted_getD_le s hs _ _ (Nat.le_succ _) hbr
      have hxy2 : x - (⌊y⌋.toNat : ℚ) ≤ y - (⌊y⌋.toNat : ℚ) := by linarith
      have hmul := mul_le_mul_of_nonneg_right hxy2 (sub_nonneg.2 hstep)
      linarith
    · rw [if_neg hbr, if_neg hbr]
  · have hx1lt : ⌊x⌋.toNat + 1 < s.length := by omega
    calc rankValue s x ≤ s.getD (⌊x⌋.toNat + 1) 0 := rankValue_le_getD_succ s hs x hx1lt
    _ ≤ s.getD ⌊y⌋.toNat 0 := sorted_getD_le s hs _ _ (by omega) hkylt
    _ ≤ rankValue s y := rankValue_ge_getD s hs y hy0

/-- C9: for a fixed non-empty sample list and percentiles p1 < p2 in [0, 100],
the percentile value at p1 is at most the percentile value at p2 (both are
numeric values). -/
theorem calculate_percentile_monotone_in_p (data : List ℚ) (hd : data ≠ []) (p1 p2 : ℚ)
    (h0 : 0 ≤ p1) (h12 : p1 < p2) (h2 : p2 ≤ 100) :
    ∃ v1 v2, calculate_percentile data p1 = PyResult.val v1 ∧
      calculate_percentile data p2 = PyResult.val v2 ∧ v1 ≤ v2 := by
  have h1' : p1 ≤ 100 := le_trans (le_of_lt h12) h2
  have h02 : 0 ≤ p2 := le_trans h0 (le_of_lt h12)
  refine ⟨_, _, calculate_percentile_eq_rankValue data hd p1 h0 h1',
    calculate_percentile_eq_rankValue data hd p2 h02 h2, ?_⟩
  have hsorted : (List.insertionSort (· ≤ ·) data).Sorted (· ≤ ·) :=
    List.sorted_insertionSort _ _
  have hlen : (List.insertionSort (· ≤ ·) data).length = data.length :=
    List.length_insertionSort _ _
  have hpos : 0 < data.length := List.length_pos.2 hd
  have hone : (1 : ℚ) ≤ (data.length : ℚ) := by exact_mod_cast hpos
  apply rankValue_mono _ hsorted
  · exact mul_nonneg (by linarith) (by positivity)
  · exact mul_le_mul_of_nonneg_left (by linarith) (by linarith)
  · rw [hlen]
    calc ((data.length : ℚ) - 1) * (p2 / 100) ≤ ((data.length : ℚ) - 1) * 1 :=
      mul_le_mul_of_nonneg_left (by linarith) (by linarith)
    _ = (data.length : ℚ) - 1 := mul_one _

/-- Witness for C9 on the list [1, 2, 3] with p1 = 10 and p2 = 90. -/
theorem calculate_percentile_monotone_in_p_witness :
    ∃ v1 v2, calculate_percentile [1, 2, 3] 10 = PyResult.val v1 ∧
      calculate_percentile [1, 2, 3] 90 = PyResult.val v2 ∧ v1 ≤ v2 :=
  calculate_percentile_monotone_in_p [1, 2, 3] (by decide) 10 90
    (by norm_num) (by norm_num) (by norm_num)

/-- C8: calculate_percentile is deterministic and order-independent: for every
pair of lists that are permutations of each other and every valid p, the
results are identical (the embedding is a pure function of its arguments, so
repeated calls agree and the input list is never mutated). -/
theorem calculate_percentile_perm_invariant (l l2 : List ℚ) (p : ℚ)
    (h0 : 0 ≤ p) (h1 : p ≤ 100) (hperm : List.Perm l l2) :
    calculate_percentile l p = calculate_percentile l2 p := by
  have hsort : List.insertionSort (· ≤ ·) l = List.insertionSort (· ≤ ·) l2 :=
    List.eq_of_perm_of_sorted
      (((List.perm_insertionSort _ l).trans hperm).trans (List.perm_insertionSort _ l2).symm)
      (List.sorted_insertionSort _ _) (List.sorted_insertionSort _ _)
  have hempty : l.isEmpty = l2.isEmpty := by
    have hlen := hperm.length_eq
    cases l <;> cases l2 <;> simp_all
  unfold calculate_percentile
  rw [hempty, hsort]

/-- Witness for C8 on the permuted pair [1, 2, 3] and [3, 1, 2] at p = 50. -/
theorem calculate_percentile_perm_invariant_witness :
    calculate_percentile [1, 2, 3] 50 = calculate_percentile [3, 1, 2] 50 :=
  calculate_percentile_perm_invariant [1, 2, 3] [3, 1, 2] 50
    (by norm_num) (by norm_num) (by decide)

/-- Per-file metrics as produced by extract_vllm_metrics in
src/srs_test/analysis/data_compare_dp.py lines 30-74.  request_rate is
validated to be a number (files failing that are dropped, i.e. the
extraction result is None); the remaining scalars come from data.get and may
be missing (None).  The raw_* lists are the per-request samples already
converted to milliseconds. -/
structure FileMetrics where
  request_rate : ℚ
  request_throughput : Option ℚ
  mean_ttft_ms : Option ℚ
  mean_tpot_ms : Option ℚ
  raw_ttfts : List ℚ
  raw_tpots : List ℚ
  raw_itls : List ℚ
deriving DecidableEq, Inhabited, Repr

/-- Per-file scalar metrics of extract_vllm_metrics in
src/srs_test/analysis/data_collect_dp.py lines 8-28, which keeps no raw
sample lists. -/
structure BasicMetrics where
  request_rate : ℚ
  request_throughput : Option ℚ
  mean_ttft_ms : Option ℚ
  mean_tpot_ms : Option ℚ
deriving DecidableEq, Inhabited, Repr

/-- Python's built-in sum over a generator of values that may be None: adding
None raises TypeError, modelled as Except.error. -/
def pySumOpt : List (Option ℚ) → Except String ℚ
  | [] => Except.ok 0
  | Option.some a :: t =>
    match pySumOpt t with
    | Except.ok s => Except.ok (a + s)
    | Except.error e => Except.error e
  | Option.none :: _ => Except.error "TypeError"

/-- Outcome of the per-group body inside the grouping loops: the group can be
skipped (the `continue` taken when no file of the group produced valid
metrics), the body can raise an uncaught exception, or it appends one
aggregated row. -/
inductive GroupOutcome (α : Type) where
  | skipped : GroupOutcome α
  | raised : String → GroupOutcome α
  | ok : α → GroupOutcome α
deriving DecidableEq, Repr

/-- Collection loop of process_grouped_files (data_compare_dp.py lines
136-149): every valid (non-None) extraction result is appended to
group_basic, and its three raw sample lists are extended onto the three raw
accumulators, in file order. -/
def collect_group_data (extracted : List (Option FileMetrics)) :
    List FileMetrics × List ℚ × List ℚ × List ℚ :=
  extracted.foldl
    (fun acc fm =>
      match fm with
      | Option.some m =>
        (acc.1 ++ [m], acc.2.1 ++ m.raw_ttfts, acc.2.2.1 ++ m.raw_tpots,
          acc.2.2.2 ++ m.raw_itls)
      | Option.none => acc)
    ([], [], [], [])

/-- Aggregated row built by process_grouped_files for one replica group
(data_compare_dp.py lines 162-174). -/
structure AggregatedCompare where
  filename : String
  request_rate : ℚ
  request_throughput : ℚ
  mean_ttft_ms : Option ℚ
  mean_tpot_ms : Option ℚ
  p99_ttft_ms : PyResult
  p99_tpot_ms : PyResult
  p99_itl_ms : PyResult
  dataset : String
deriving DecidableEq, Repr

/-- Embedding of the per-group body of process_grouped_files
(src/srs_test/analysis/data_compare_dp.py lines 136-176), starting from the
per-file extraction results (None for a file whose extraction failed):
collect raw samples and valid metrics, skip the group when empty, average
the None-filtered mean scalars over the files that supplied them, sum the
request_throughput scalars (a missing one raises TypeError), take the first
file's request_rate (the summing variant in the source is commented out),
and compute each P99 with calculate_percentile over the group's concatenated
raw samples. -/
def process_group_compare (base_name ds : String) (extracted : List (Option FileMetrics)) :
    GroupOutcome AggregatedCompare :=
  let c := collect_group_data extracted
  let group_basic := c.1
  if group_basic.isEmpty then GroupOutcome.skipped
  else
    let valid_mean_ttft := group_basic.filterMap FileMetrics.mean_ttft_ms
    let valid_mean_tpot := group_basic.filterMap FileMetrics.mean_tpot_ms
    match pySumOpt (group_basic.map FileMetrics.request_throughput) with
    | Except.error e => GroupOutcome.raised e
    | Except.ok total_throughput =>
      GroupOutcome.ok
        { filename := base_name ++ " (combined)"
          request_rate := (group_basic.headD default).request_rate
          request_throughput := total_throughput
          mean_ttft_ms :=
            if valid_mean_ttft.isEmpty then Option.none
            else Option.some (valid_mean_ttft.sum / (valid_mean_ttft.length : ℚ))
          mean_tpot_ms :=
            if valid_mean_tpot.isEmpty then Option.none
            else Option.some (valid_mean_tpot.sum / (valid_mean_tpot.length : ℚ))
          p99_ttft_ms := calculate_percentile c.2.1 99
          p99_tpot_ms := calculate_percentile c.2.2.1 99
          p99_itl_ms := calculate_percentile c.2.2.2 99
          dataset := ds }

/-- Aggregated row built by process_all_vllm_files for one replica group
(data_collect_dp.py lines 63-69). -/
structure AggregatedCollect where
  filename : String
  request_rate : ℚ
  request_throughput : ℚ
  mean_ttft_ms : ℚ
  mean_tpot_ms : ℚ
deriving DecidableEq, Repr

/-- Embedding of the per-group body of process_all_vllm_files
(src/srs_test/analysis/data_collect_dp.py lines 52-70): keep the valid
extraction results, skip the group when none are valid, sum request_rate and
request_throughput (a missing throughput raises TypeError), and divide the
None-filtered sums of the mean scalars by len(group_data) - the size of the
whole group, not the number of contributing files. -/
def process_group_collect (base_name : String) (extracted : List (Option BasicMetrics)) :
    GroupOutcome AggregatedCollect :=
  let group_data := extracted.filterMap id
  if group_data.isEmpty then GroupOutcome.skipped
  else
    match pySumOpt (group_data.map BasicMetrics.request_throughput) with
    | Except.error e => GroupOutcome.raised e
    | Except.ok total_throughput =>
      GroupOutcome.ok
        { filename := base_name ++ " (combined)"
          request_rate := (group_data.map BasicMetrics.request_rate).sum
          request_throughput := total_throughput
          mean_ttft_ms :=
            (group_data.filterMap BasicMetrics.mean_ttft_ms).sum / (group_data.length : ℚ)
          mean_tpot_ms :=
            (group_data.filterMap BasicMetrics.mean_tpot_ms).sum / (group_data.length : ℚ) }

/-- Helper: the accumulating collection fold, started from arbitrary
accumulators, appends the valid entries and the concatenation of their raw
sample lists. -/
theorem collect_group_data_go (extracted : List (Option FileMetrics))
    (a : List FileMetrics) (b c d : List ℚ) :
    extracted.foldl
      (fun acc fm =>
        match fm with
        | Option.some m =>
          (acc.1 ++ [m], acc.2.1 ++ m.raw_ttfts, acc.2.2.1 ++ m.raw_tpots,
            acc.2.2.2 ++ m.raw_itls)
        | Option.none => acc)
      (a, b, c, d) =
      (a ++ extracted.filterMap id,
       b ++ ((extracted.filterMap id).map FileMetrics.raw_ttfts).flatten,
       c ++ ((extracted.filterMap id).map FileMetrics.raw_tpots).flatten,
       d ++ ((extracted.filterMap id).map FileMetrics.raw_itls).flatten) := by
  induction extracted generalizing a b c d with
  | nil => simp
  | cons x t ih =>
    cases x with
    | none => simpa using ih a b c d
    | some m =>
      simp only [List.foldl_cons, List.filterMap_cons, id, List.map_cons, List.flatten_cons]
      rw [ih]
      simp [List.append_assoc]

/-- Helper: the collection loop of process_grouped_files produces the valid
entries together with the flattened concatenation of their raw sample lists,
in file order. -/
theorem collect_group_data_eq (extracted : List (Option FileMetrics)) :
    collect_group_data extracted =
      (extracted.filterMap id,
       ((extracted.filterMap id).map FileMetrics.raw_ttfts).flatten,
       ((extracted.filterMap id).map FileMetrics.raw_tpots).flatten,
       ((extracted.filterMap id).map FileMetrics.raw_itls).flatten) := by
  simpa using collect_group_data_go extracted [] [] [] []

/-- C7: whenever process_grouped_files emits an aggregated row for a replica
group, each reported P99 field equals calculate_percentile applied to the
concatenation (union) of the raw sample lists of all the group's valid
replicas - not a percentile of per-replica percentiles or means. -/
theorem process_group_compare_p99_union (extracted : List (Option FileMetrics))
    (b ds : String) (agg : AggregatedCompare)
    (h : process_group_compare b ds extracted = GroupOutcome.ok agg) :
    agg.p99_ttft_ms =
      calculate_percentile (((extracted.filterMap id).map FileMetrics.raw_ttfts).flatten) 99 ∧
    agg.p99_tpot_ms =
      calculate_percentile (((extracted.filterMap id).map FileMetrics.raw_tpots).flatten) 99 ∧
    agg.p99_itl_ms =
      calculate_percentile (((extracted.filterMap id).map FileMetrics.raw_itls).flatten) 99 := by
  unfold process_group_compare at h
  rw [collect_group_data_eq] at h
  by_cases he : (extracted.filterMap id).isEmpty
  · rw [if_pos he] at h
    exact absurd h (by simp)
  · rw [if_neg he] at h
    cases hsum : pySumOpt ((extracted.filterMap id).map FileMetrics.request_throughput) with
    | error e =>
      rw [hsum] at h
      exact absurd h (by simp)
    | ok tot =>
      rw [hsum] at h
      injection h with h2
      subst h2
      exact ⟨rfl, rfl, rfl⟩

/-- Helper: `calculate_percentile [10] 99` evaluates to `10`. -/
theorem eval_10_99 : calculate_percentile [10] 99 = PyResult.val 10 := by
  refine calculate_percentile_eval_last [10] [10] 99 10 0
    (by decide) (by decide) ?_ (by decide) (by decide)
  exact floor_eval _ _ (by norm_num) (by norm_num)

/-- First replica of the raw-sample example group: throughput 2, missing mean
scalars, raw TTFT samples [1, 2], no TPOT samples, one ITL sample. -/
def fmA : FileMetrics :=
  { request_rate := 1, request_throughput := Option.some 2,
    mean_ttft_ms := Option.none, mean_tpot_ms := Option.none,
    raw_ttfts := [1, 2], raw_tpots := [], raw_itls := [10] }

/-- Second replica of the raw-sample example group: throughput 3, missing
mean scalars, raw TTFT samples [3, 4]. -/
def fmB : FileMetrics :=
  { request_rate := 2, request_throughput := Option.some 3,
    mean_ttft_ms := Option.none, mean_tpot_ms := Option.none,
    raw_ttfts := [3, 4], raw_tpots := [], raw_itls := [] }

/-- Aggregated row the merge produces for the group [fmA, fmB]. -/
def aggAB : AggregatedCompare :=
  { filename := "g (combined)", request_rate := 1, request_throughput := 5,
    mean_ttft_ms := Option.none, mean_tpot_ms := Option.none,
    p99_ttft_ms := PyResult.val (397 / 100), p99_tpot_ms := PyResult.none,
    p99_itl_ms := PyResult.val 10, dataset := "d" }

/-- Helper: evaluation of the grouped merge on the group [fmA, fmB]. -/
theorem process_AB_eval :
    process_group_compare "g" "d" [Option.some fmA, Option.some fmB] =
      GroupOutcome.ok aggAB := by
  unfold process_group_compare
  rw [collect_group_data_eq]
  simp only [List.filterMap_cons, id, List.filterMap_nil, List.map_cons, List.map_nil,
    List.flatten_cons, List.flatten_nil, fmA, fmB, aggAB]
  norm_num [pySumOpt, eval_1234_99, eval_10_99]
  exact ⟨rfl, rfl⟩

/-- Witness for C7: on the concrete group [fmA, fmB] the aggregated row's
P99 fields equal calculate_percentile over the concatenated raw samples. -/
theorem process_group_compare_p99_union_witness :
    aggAB.p99_ttft_ms =
      calculate_percentile ((([Option.some fmA, Option.some fmB].filterMap id).map
        FileMetrics.raw_ttfts).flatten) 99 ∧
    aggAB.p99_tpot_ms =
      calculate_percentile ((([Option.some fmA, Option.some fmB].filterMap id).map
        FileMetrics.raw_tpots).flatten) 99 ∧
    aggAB.p99_itl_ms =
      calculate_percentile ((([Option.some fmA, Option.some fmB].filterMap id).map
        FileMetrics.raw_itls).flatten) 99 :=
  process_group_compare_p99_union [Option.some fmA, Option.some fmB] "g" "d" aggAB
    process_AB_eval

/-- First replica of the scalar example group: request_rate 1, throughput 2,
mean TTFT/TPOT 100, no raw samples. -/
def fmC : FileMetrics :=
  { request_rate := 1, request_throughput := Option.some 2,
    mean_ttft_ms := Option.some 100, mean_tpot_ms := Option.some 100,
    raw_ttfts := [], raw_tpots := [], raw_itls := [] }

/-- Second replica of the scalar example group: request_rate 2, throughput 3,
mean TTFT/TPOT 120, no raw samples. -/
def fmD : FileMetrics :=
  { request_rate := 2, request_throughput := Option.some 3,
    mean_ttft_ms := Option.some 120, mean_tpot_ms := Option.some 120,
    raw_ttfts := [], raw_tpots := [], raw_itls := [] }

/-- Aggregated row the grouped merge produces for [fmC, fmD]: throughput is
the sum 5, the means are the average 110, but request_rate is the first
replica's value 1, not the sum 3. -/
def aggCD : AggregatedCompare :=
  { filename := "g (combined)", request_rate := 1, request_throughput := 5,
    mean_ttft_ms := Option.some 110, mean_tpot_ms := Option.some 110,
    p99_ttft_ms := PyResult.none, p99_tpot_ms := PyResult.none,
    p99_itl_ms := PyResult.none, dataset := "d" }

/-- Helper: evaluation of the grouped merge on the group [fmC, fmD]. -/
theorem process_CD_eval :
    process_group_compare "g" "d" [Option.some fmC, Option.some fmD] =
      GroupOutcome.ok aggCD := by
  unfold process_group_compare
  rw [collect_group_data_eq]
  simp only [List.filterMap_cons, id, List.filterMap_nil, List.map_cons, List.map_nil,
    List.flatten_cons, List.flatten_nil, fmC, fmD, aggCD]
  norm_num [pySumOpt]
  exact ⟨rfl, rfl⟩

/-- C5 counterexample: merging the two replicas fmC (request_rate 1,
throughput 2, mean TTFT 100) and fmD (request_rate 2, throughput 3, mean
TTFT 120) with process_grouped_files gives combined request_rate 1 - the
first replica's value - and not the sum 3, so the merge policy does not sum
request_rate across replicas. -/
theorem process_group_compare_rate_not_summed :
    process_group_compare "g" "d" [Option.some fmC, Option.some fmD] =
      GroupOutcome.ok aggCD ∧
    aggCD.request_rate = 1 ∧ fmC.request_rate + fmD.request_rate = 3 ∧ (1 : ℚ) ≠ 3 :=
  ⟨process_CD_eval, rfl, by norm_num [fmC, fmD], by norm_num⟩

/-- Helper: Python's sum succeeds and adds up the values when no None is
present. -/
theorem pySumOpt_all_some (l : List (Option ℚ)) (h : Option.none ∉ l) :
    pySumOpt l = Except.ok ((l.filterMap id).sum) := by
  induction l with
  | nil => simp [pySumOpt]
  | cons x t ih =>
    cases x with
    | none => simp at h
    | some a =>
      have ht : Option.none ∉ t := fun hm => h (List.mem_cons_of_mem _ hm)
      simp [pySumOpt, ih ht]

/-- Helper: closed form of the grouped-merge row of process_grouped_files on
a non-empty group of valid files whose throughputs sum to tot. -/
theorem process_group_compare_fields (b ds : String) (ms : List FileMetrics)
    (first : FileMetrics) (rest : List FileMetrics) (hms : ms = first :: rest) (tot : ℚ)
    (hsum : pySumOpt (ms.map FileMetrics.request_throughput) = Except.ok tot) :
    process_group_compare b ds (ms.map Option.some) = GroupOutcome.ok
      { filename := b ++ " (combined)"
        request_rate := first.request_rate
        request_throughput := tot
        mean_ttft_ms :=
          if (ms.filterMap FileMetrics.mean_ttft_ms).isEmpty then Option.none
          else Option.some ((ms.filterMap FileMetrics.mean_ttft_ms).sum /
            ((ms.filterMap FileMetrics.mean_ttft_ms).length : ℚ))
        mean_tpot_ms :=
          if (ms.filterMap FileMetrics.mean_tpot_ms).isEmpty then Option.none
          else Option.some ((ms.filterMap FileMetrics.mean_tpot_ms).sum /
            ((ms.filterMap FileMetrics.mean_tpot_ms).length : ℚ))
        p99_ttft_ms := calculate_percentile ((ms.map FileMetrics.raw_ttfts).flatten) 99
        p99_tpot_ms := calculate_percentile ((ms.map FileMetrics.raw_tpots).flatten) 99
        p99_itl_ms := calculate_percentile ((ms.map FileMetrics.raw_itls).flatten) 99
        dataset := ds } := by
  have hfm : (ms.map Option.some).filterMap id = ms := by simp
  unfold process_group_compare
  rw [collect_group_data_eq, hfm]
  subst hms
  rw [if_neg (by simp), hsum]
  simp

/-- Helper: closed form of the merged row of process_all_vllm_files on a
non-empty group of valid files whose throughputs sum to tot. -/
theorem process_group_collect_fields (b : String) (ms : List BasicMetrics)
    (first : BasicMetrics) (rest : List BasicMetrics) (hms : ms = first :: rest) (tot : ℚ)
    (hsum : pySumOpt (ms.map BasicMetrics.request_throughput) = Except.ok tot) :
    process_group_collect b (ms.map Option.some) = GroupOutcome.ok
      { filename := b ++ " (combined)"
        request_rate := (ms.map BasicMetrics.request_rate).sum
        request_throughput := tot
        mean_ttft_ms := (ms.filterMap BasicMetrics.mean_ttft_ms).sum / (ms.length : ℚ)
        mean_tpot_ms := (ms.filterMap BasicMetrics.mean_tpot_ms).sum / (ms.length : ℚ) } := by
  have hfm : (ms.map Option.some).filterMap id = ms := by simp
  unfold process_group_collect
  rw [hfm]
  subst hms
  rw [if_neg (by simp), hsum]

/-- C5 amended: the merge policy sums request_throughput across all replicas
of a group and arithmetic-averages each mean_*_ms scalar over the replicas
that supply it; request_rate, however, is summed only by
process_all_vllm_files (data_collect_dp.py), while process_grouped_files
(data_compare_dp.py) reports the first replica's request_rate.  In
particular, merging replicas with throughputs 2.0 and 3.0 yields combined
throughput 5.0, and mean TTFTs 100.0 and 120.0 yield combined mean TTFT
110.0. -/
theorem merge_policy_sums_and_averages (b ds : String)
    (first : FileMetrics) (rest : List FileMetrics)
    (hnone : Option.none ∉ (first :: rest).map FileMetrics.request_throughput)
    (bfirst : BasicMetrics) (brest : List BasicMetrics)
    (hnone2 : Option.none ∉ (bfirst :: brest).map BasicMetrics.request_throughput) :
    (∃ agg, process_group_compare b ds ((first :: rest).map Option.some) =
        GroupOutcome.ok agg ∧
      agg.request_throughput =
        (((first :: rest).map FileMetrics.request_throughput).filterMap id).sum ∧
      agg.request_rate = first.request_rate ∧
      agg.mean_ttft_ms =
        (if ((first :: rest).filterMap FileMetrics.mean_ttft_ms).isEmpty then Option.none
         else Option.some (((first :: rest).filterMap FileMetrics.mean_ttft_ms).sum /
           (((first :: rest).filterMap FileMetrics.mean_ttft_ms).length : ℚ))) ∧
      agg.mean_tpot_ms =
        (if ((first :: rest).filterMap FileMetrics.mean_tpot_ms).isEmpty then Option.none
         else Option.some (((first :: rest).filterMap FileMetrics.mean_tpot_ms).sum /
           (((first :: rest).filterMap FileMetrics.mean_tpot_ms).length : ℚ)))) ∧
    (∃ agg2, process_group_collect b ((bfirst :: brest).map Option.some) =
        GroupOutcome.ok agg2 ∧
      agg2.request_rate = ((bfirst :: brest).map BasicMetrics.request_rate).sum ∧
      agg2.request_throughput =
        (((bfirst :: brest).map BasicMetrics.request_throughput).filterMap id).sum ∧
      agg2.mean_ttft_ms = ((bfirst :: brest).filterMap BasicMetrics.mean_ttft_ms).sum /
        (((bfirst :: brest).length : ℚ))) ∧
    (process_group_compare "g" "d" [Option.some fmC, Option.some fmD] =
        GroupOutcome.ok aggCD ∧
      fmC.request_throughput = Option.some 2 ∧ fmD.request_throughput = Option.some 3 ∧
      aggCD.request_throughput = 5 ∧
      fmC.mean_ttft_ms = Option.some 100 ∧ fmD.mean_ttft_ms = Option.some 120 ∧
      aggCD.mean_ttft_ms = Option.some 110) := by
  refine ⟨⟨_, process_group_compare_fields b ds (first :: rest) first rest rfl _
      (pySumOpt_all_some _ hnone), rfl, rfl, rfl, rfl⟩,
    ⟨_, process_group_collect_fields b (bfirst :: brest) bfirst brest rfl _
      (pySumOpt_all_some _ hnone2), rfl, rfl, rfl⟩,
    process_CD_eval, rfl, rfl, rfl, rfl, rfl, rfl⟩

/-- First replica with scalar metrics only, mirroring fmC. -/
def bmC : BasicMetrics :=
  { request_rate := 1, request_throughput := Option.some 2,
    mean_ttft_ms := Option.some 100, mean_tpot_ms := Option.some 100 }

/-- Second replica with scalar metrics only, mirroring fmD. -/
def bmD : BasicMetrics :=
  { request_rate := 2, request_throughput := Option.some 3,
    mean_ttft_ms := Option.some 120, mean_tpot_ms := Option.some 120 }

/-- Witness for C5 amended, on the concrete groups [fmC, fmD] and
[bmC, bmD]. -/
theorem merge_policy_sums_and_averages_witness :
    (∃ agg, process_group_compare "g" "d" ([fmC, fmD].map Option.some) =
        GroupOutcome.ok agg ∧
      agg.request_throughput =
        (([fmC, fmD].map FileMetrics.request_throughput).filterMap id).sum ∧
      agg.request_rate = fmC.request_rate ∧
      agg.mean_ttft_ms =
        (if ([fmC, fmD].filterMap FileMetrics.mean_ttft_ms).isEmpty then Option.none
         else Option.some (([fmC, fmD].filterMap FileMetrics.mean_ttft_ms).sum /
           (([fmC, fmD].filterMap FileMetrics.mean_ttft_ms).length : ℚ))) ∧
      agg.mean_tpot_ms =
        (if ([fmC, fmD].filterMap FileMetrics.mean_tpot_ms).isEmpty then Option.none
         else Option.some (([fmC, fmD].filterMap FileMetrics.mean_tpot_ms).sum /
           (([fmC, fmD].filterMap FileMetrics.mean_tpot_ms).length : ℚ)))) ∧
    (∃ agg2, process_group_collect "g" ([bmC, bmD].map Option.some) =
        GroupOutcome.ok agg2 ∧
      agg2.request_rate = ([bmC, bmD].map BasicMetrics.request_rate).sum ∧
      agg2.request_throughput =
        (([bmC, bmD].map BasicMetrics.request_throughput).filterMap id).sum ∧
      agg2.mean_ttft_ms = ([bmC, bmD].filterMap BasicMetrics.mean_ttft_ms).sum /
        ((([bmC, bmD] : List BasicMetrics).length : ℚ))) ∧
    (process_group_compare "g" "d" [Option.some fmC, Option.some fmD] =
        GroupOutcome.ok aggCD ∧
      fmC.request_throughput = Option.some 2 ∧ fmD.request_throughput = Option.some 3 ∧
      aggCD.request_throughput = 5 ∧
      fmC.mean_ttft_ms = Option.some 100 ∧ fmD.mean_ttft_ms = Option.some 120 ∧
      aggCD.mean_ttft_ms = Option.some 110) :=
  merge_policy_sums_and_averages "g" "d" fmC [fmD] (by decide) bmC [bmD] (by decide)

/-- Replica with all scalars present: rate 1, throughput 2, means 100. -/
def bmE : BasicMetrics :=
  { request_rate := 1, request_throughput := Option.some 2,
    mean_ttft_ms := Option.some 100, mean_tpot_ms := Option.some 100 }

/-- Replica whose mean scalars are missing (None): rate 1, throughput 2. -/
def bmF : BasicMetrics :=
  { request_rate := 1, request_throughput := Option.some 2,
    mean_ttft_ms := Option.none, mean_tpot_ms := Option.none }

/-- Replica with all scalars present, mirroring bmE, with no raw samples. -/
def fmE : FileMetrics :=
  { request_rate := 1, request_throughput := Option.some 2,
    mean_ttft_ms := Option.some 100, mean_tpot_ms := Option.some 100,
    raw_ttfts := [], raw_tpots := [], raw_itls := [] }

/-- Replica whose mean scalars are missing (None), mirroring bmF. -/
def fmF : FileMetrics :=
  { request_rate := 1, request_throughput := Option.some 2,
    mean_ttft_ms := Option.none, mean_tpot_ms := Option.none,
    raw_ttfts := [], raw_tpots := [], raw_itls := [] }

/-- Helper: process_all_vllm_files on the group [bmE, bmF] averages the lone
mean value 100 over the whole group size 2, reporting 50. -/
theorem process_EF_collect_eval :
    process_group_collect "g" [Option.some bmE, Option.some bmF] = GroupOutcome.ok
      { filename := "g (combined)", request_rate := 2, request_throughput := 4,
        mean_ttft_ms := 50, mean_tpot_ms := 50 } := by
  unfold process_group_collect
  simp only [List.filterMap_cons, id, List.filterMap_nil, bmE, bmF]
  norm_num [pySumOpt]
  rfl

/-- Helper: process_grouped_files on the matching group [fmE, fmF] averages
the lone mean value 100 over the 1 contributing replica, reporting 100. -/
theorem process_EF_compare_eval :
    process_group_compare "g" "d" [Option.some fmE, Option.some fmF] = GroupOutcome.ok
      { filename := "g (combined)", request_rate := 1, request_throughput := 4,
        mean_ttft_ms := Option.some 100, mean_tpot_ms := Option.some 100,
        p99_ttft_ms := PyResult.none, p99_tpot_ms := PyResult.none,
        p99_itl_ms := PyResult.none, dataset := "d" } := by
  unfold process_group_compare
  rw [collect_group_data_eq]
  simp only [List.filterMap_cons, id, List.filterMap_nil, List.map_cons, List.map_nil,
    List.flatten_cons, List.flatten_nil, fmE, fmF]
  norm_num [pySumOpt]
  exact ⟨rfl, rfl⟩

/-- C6: merging a group whose second replica has a missing (None) mean scalar.
process_all_vllm_files (data_collect_dp.py line 67) filters the None out of
the numerator but divides by len(group_data) = 2, reporting 50.0 instead of
the contributed value 100.0, so the missing replica is not excluded from the
aggregate as claimed; process_grouped_files (data_compare_dp.py line 168)
divides by the 1 contributing replica and reports 100.0 as the claim states. -/
theorem merge_missing_mean_divides_by_group_size :
    process_group_collect "g" [Option.some bmE, Option.some bmF] = GroupOutcome.ok
      { filename := "g (combined)", request_rate := 2, request_throughput := 4,
        mean_ttft_ms := 50, mean_tpot_ms := 50 } ∧
    (50 : ℚ) ≠ 100 ∧
    process_group_compare "g" "d" [Option.some fmE, Option.some fmF] = GroupOutcome.ok
      { filename := "g (combined)", request_rate := 1, request_throughput := 4,
        mean_ttft_ms := Option.some 100, mean_tpot_ms := Option.some 100,
        p99_ttft_ms := PyResult.none, p99_tpot_ms := PyResult.none,
        p99_itl_ms := PyResult.none, dataset := "d" } :=
  ⟨process_EF_collect_eval, by norm_num, process_EF_compare_eval⟩

/-- Dynamic inputs that can reach calculate_percentile's guard: a Python
list, a tuple, or a one-dimensional numpy ndarray, each carrying numeric
entries. -/
inductive PyInput where
  | pylist : List ℚ → PyInput
  | pytuple : List ℚ → PyInput
  | ndarray : List ℚ → PyInput
deriving DecidableEq, Repr

/-- Truthiness test `not data`: lists and tuples are falsy exactly when
empty; a numpy ndarray supports the boolean conversion only when it holds
exactly one element (then it is falsy when that element is zero) and
otherwise the conversion raises ValueError - the ambiguous-truth-value error
for multi-element arrays, and the NumPy 2 behavior for empty arrays. -/
def pyNot : PyInput → Except String Bool
  | PyInput.pylist l => Except.ok l.isEmpty
  | PyInput.pytuple l => Except.ok l.isEmpty
  | PyInput.ndarray l =>
    if h : l.length = 1 then Except.ok (decide (l.headD 0 = 0))
    else Except.error "ValueError: truth value of an array is ambiguous"

/-- Python's isinstance(data, list) for the modelled inputs. -/
def PyInput.isPyList : PyInput → Bool
  | PyInput.pylist _ => true
  | _ => false

/-- Embedding of calculate_percentile's full dynamic entry
(data_compare_dp.py lines 17-18): `if not data or not isinstance(data,
list): return None` evaluates `not data` first (which can raise for numpy
arrays) and short-circuits, then falls through to the numeric body only for
non-empty lists. -/
def calculate_percentile_dyn (data : PyInput) (percentile : ℚ) :
    Except String PyResult :=
  match pyNot data with
  | Except.error e => Except.error e
  | Except.ok b =>
    if b then Except.ok PyResult.none
    else if ¬ data.isPyList then Except.ok PyResult.none
    else
      match data with
      | PyInput.pylist l => Except.ok (calculate_percentile l percentile)
      | PyInput.pytuple _ => Except.ok PyResult.none
      | PyInput.ndarray _ => Except.ok PyResult.none

/-- C10 counterexample: a non-empty numpy array of two valid numbers does
not make calculate_percentile return None: the truthiness test `not data`
raises ValueError for a multi-element array, so the call raises instead of
returning the no-value result. -/
theorem calculate_percentile_dyn_ndarray_raises :
    calculate_percentile_dyn (PyInput.ndarray [1, 2]) 50 =
      Except.error "ValueError: truth value of an array is ambiguous" ∧
    calculate_percentile_dyn (PyInput.ndarray [1, 2]) 50 ≠
      Except.ok PyResult.none := by
  refine ⟨rfl, ?_⟩
  intro h
  simp [calculate_percentile_dyn, pyNot] at h

/-- C10 amended: for every tuple input (empty or not) and every
single-element numpy array, calculate_percentile returns None for every p,
exactly as for an empty list; but a numpy array with two or more elements
raises ValueError from the truthiness test instead of returning None. -/
theorem calculate_percentile_dyn_non_list (t : List ℚ) (x p q r : ℚ) (rest : List ℚ)
    (a b : ℚ) :
    calculate_percentile_dyn (PyInput.pytuple t) p = Except.ok PyResult.none ∧
    calculate_percentile_dyn (PyInput.ndarray [x]) q = Except.ok PyResult.none ∧
    calculate_percentile_dyn (PyInput.ndarray (a :: b :: rest)) r =
      Except.error "ValueError: truth value of an array is ambiguous" := by
  refine ⟨?_, ?_, ?_⟩
  · unfold calculate_percentile_dyn pyNot
    by_cases ht : t.isEmpty <;> simp [ht, PyInput.isPyList]
  · unfold calculate_percentile_dyn pyNot
    by_cases hx : x = 0 <;> simp [hx, PyInput.isPyList]
  · unfold calculate_percentile_dyn pyNot
    simp
